import Mathlib

/-!
# EmailListChecker Node.js client: request dispatch and error translation

A shallow embedding of `lib/client.js` and `lib/errors.js`.

JavaScript values are embedded as `JsVal`.  Numbers are the integer-valued
numbers together with `NaN`; fractional numbers and the rounding of integers
beyond 2^53 are outside the model.  Strings are sequences of code points.
The HTTP transport (axios) is not part of the repository: it appears as a
function from the request handed to `client.request` to the way that call
settles.
-/

namespace EmailListChecker

/-! ## JavaScript values -/

/-- JavaScript numbers of the model: the integers and `NaN`. -/
inductive JsNum where
  | int (n : Int) : JsNum
  | nan : JsNum
  deriving DecidableEq, Repr

/-- JavaScript `Number::toString` in radix 10 (decimal digits for an integer,
exact below 10^21). -/
def JsNum.render : JsNum → String
  | .int n => toString n
  | .nan => "NaN"

/-- The numbers on which `render` is exact: `NaN` and the integers of
magnitude below 10^21, from which on JavaScript prints an exponent. -/
def JsNum.rendersExactly : JsNum → Bool
  | .int n => decide (n.natAbs < 10 ^ 21)
  | .nan => true

/-- JavaScript values that reach the client: what `JSON.parse` can produce,
plus `undefined` and `NaN`, which arise from missing properties and from
`parseInt`. An object is its list of own properties. -/
inductive JsVal where
  | undefined : JsVal
  | null : JsVal
  | bool (b : Bool) : JsVal
  | num (x : JsNum) : JsVal
  | str (s : String) : JsVal
  | arr (xs : List JsVal) : JsVal
  | obj (fields : List (String × JsVal)) : JsVal

/-- Classes of `lib/errors.js`; the constructor name is what `this.name` holds. -/
inductive ErrorClass where
  | EmailListCheckerError
  | AuthenticationError
  | InsufficientCreditsError
  | RateLimitError
  | ValidationError
  | ApiError
  deriving DecidableEq, Repr

/-- An instance of `EmailListCheckerError` or of one of its subclasses.
`retryAfter` is `none` for the classes that do not define the property. -/
structure SdkError where
  name : ErrorClass
  message : String
  statusCode : JsVal
  responseData : JsVal
  retryAfter : Option JsVal

/-- What a call can throw: an error of the SDK hierarchy, or a `TypeError`
raised by the JavaScript runtime. -/
inductive Thrown where
  | sdk (e : SdkError) : Thrown
  | typeError : Thrown

/-- Result of evaluating JavaScript code that may throw. -/
abbrev Js (α : Type) := Except Thrown α

/-- JavaScript `ToBoolean`. -/
def truthy : JsVal → Bool
  | .undefined => false
  | .null => false
  | .bool b => b
  | .num (.int n) => n != 0
  | .num .nan => false
  | .str s => s.data != []
  | .arr _ => true
  | .obj _ => true

/-- Own-property lookup in an object's property list. -/
def lookupField (k : String) : List (String × JsVal) → Option JsVal
  | [] => none
  | (k', v) :: rest => if k' = k then some v else lookupField k rest

/-- Property read `v.k` for the keys the client reads (`data`, `error`,
`message`), none of which is defined on a built-in prototype: a `TypeError`
on `undefined` and `null`, the own property of an object, and `undefined`
on every other receiver. -/
def getProp (v : JsVal) (k : String) : Js JsVal :=
  match v with
  | .undefined => .error .typeError
  | .null => .error .typeError
  | .obj fields => .ok ((lookupField k fields).getD .undefined)
  | _ => .ok .undefined

/-- JavaScript `a || b` on already evaluated operands. -/
def jsOr (a b : JsVal) : JsVal :=
  if truthy a then a else b

/-- Default parameter value: the default replaces exactly `undefined`. -/
def orDefault (arg dflt : JsVal) : JsVal :=
  match arg with
  | .undefined => dflt
  | v => v

/-- String of one array element inside `join`, given the element and its
`ToString`: `undefined` and `null` contribute the empty string. -/
def elemStr (x : JsVal) (s : Js String) : Js String :=
  match x with
  | .undefined => .ok ""
  | .null => .ok ""
  | _ => s

mutual
/-- JavaScript `ToString`.  An array is joined with commas
(`Array.prototype.join`); an object gives `[object Object]` through
`Object.prototype.toString`, unless it has an own `toString` property, which
after `JSON.parse` is never callable, and then the conversion throws a
`TypeError`. -/
def toStr : JsVal → Js String
  | .undefined => .ok "undefined"
  | .null => .ok "null"
  | .bool true => .ok "true"
  | .bool false => .ok "false"
  | .num x => .ok x.render
  | .str s => .ok s
  | .arr xs => joinElems xs
  | .obj fields =>
    match lookupField "toString" fields with
    | some _ => .error .typeError
    | none => .ok "[object Object]"
/-- Body of `Array.prototype.join` with separator `,`. -/
def joinElems : List JsVal → Js String
  | [] => .ok ""
  | x :: rest =>
    match elemStr x (toStr x) with
    | .error e => .error e
    | .ok a =>
      match rest with
      | [] => .ok a
      | _ :: _ =>
        match joinElems rest with
        | .error e => .error e
        | .ok b => .ok (a ++ "," ++ b)
end


/-! ## `parseInt` -/

/-- White space and line terminators skipped by `parseInt` (`StrWhiteSpaceChar`). -/
def isStrWhiteSpace (c : Char) : Bool :=
  let n := c.toNat
  n == 0x09 || n == 0x0A || n == 0x0B || n == 0x0C || n == 0x0D || n == 0x20 ||
  n == 0xA0 || n == 0x1680 || (0x2000 ≤ n && n ≤ 0x200A) || n == 0x2028 ||
  n == 0x2029 || n == 0x202F || n == 0x205F || n == 0x3000 || n == 0xFEFF

/-- Value of a character as a digit in radix `r`, if it is one. -/
def radixDigit (r : Nat) (c : Char) : Option Nat :=
  let n := c.toNat
  let d : Option Nat :=
    if 48 ≤ n ∧ n ≤ 57 then some (n - 48)
    else if 97 ≤ n ∧ n ≤ 122 then some (n - 87)
    else if 65 ≤ n ∧ n ≤ 90 then some (n - 55)
    else none
  match d with
  | some v => if v < r then some v else none
  | none => none

/-- Value of the longest leading run of radix-`r` digits; `acc` is `none`
until a digit has been read. -/
def parseDigits (r : Nat) : List Char → Option Nat → Option Nat
  | [], acc => acc
  | c :: cs, acc =>
    match radixDigit r c with
    | some d => parseDigits r cs (some (acc.getD 0 * r + d))
    | none => acc

/-- JavaScript `parseInt(string)` with the radix argument omitted: leading
white space is skipped, a sign is read, a `0x` or `0X` start selects radix 16,
and the longest run of digits is the value; `NaN` when there is no digit. -/
def parseInt (s : String) : JsNum :=
  let s0 := s.data.dropWhile isStrWhiteSpace
  let sign : Int := match s0 with
    | '-' :: _ => -1
    | _ => 1
  let s1 := match s0 with
    | '+' :: rest => rest
    | '-' :: rest => rest
    | _ => s0
  let rs : Nat × List Char := match s1 with
    | '0' :: 'x' :: rest => (16, rest)
    | '0' :: 'X' :: rest => (16, rest)
    | _ => (10, s1)
  match parseDigits rs.1 rs.2 none with
  | none => .nan
  | some m => .int (sign * m)

/-! ## `lib/errors.js` -/

/-- The `Error` constructor's treatment of its argument: no message for
`undefined`, otherwise `ToString` of the argument. -/
def errorMessage : JsVal → Js String
  | .undefined => .ok ""
  | v => toStr v

/-- Constructor of `EmailListCheckerError`, run with `this.constructor` the
class `cls`: `constructor(message, statusCode = null, responseData = null)`. -/
def newEmailListCheckerError (cls : ErrorClass) (message statusCode responseData : JsVal) :
    Js SdkError :=
  match errorMessage message with
  | .error t => .error t
  | .ok m =>
    .ok { name := cls
          message := m
          statusCode := orDefault statusCode .null
          responseData := orDefault responseData .null
          retryAfter := none }

/-- `new AuthenticationError(message, statusCode = 401, responseData = null)`. -/
def newAuthenticationError (message statusCode responseData : JsVal) : Js SdkError :=
  newEmailListCheckerError .AuthenticationError message
    (orDefault statusCode (.num (.int 401))) (orDefault responseData .null)

/-- `new InsufficientCreditsError(message, statusCode = 402, responseData = null)`. -/
def newInsufficientCreditsError (message statusCode responseData : JsVal) : Js SdkError :=
  newEmailListCheckerError .InsufficientCreditsError message
    (orDefault statusCode (.num (.int 402))) (orDefault responseData .null)

/-- `new RateLimitError(message, retryAfter = 60, statusCode = 429,
responseData = null)`: the base constructor, then `this.retryAfter = retryAfter`. -/
def newRateLimitError (message retryAfter statusCode responseData : JsVal) : Js SdkError :=
  match newEmailListCheckerError .RateLimitError message
      (orDefault statusCode (.num (.int 429))) (orDefault responseData .null) with
  | .error t => .error t
  | .ok e => .ok { e with retryAfter := some (orDefault retryAfter (.num (.int 60))) }

/-- `new ValidationError(message, statusCode = 422, responseData = null)`. -/
def newValidationError (message statusCode responseData : JsVal) : Js SdkError :=
  newEmailListCheckerError .ValidationError message
    (orDefault statusCode (.num (.int 422))) (orDefault responseData .null)

/-- `new ApiError(...)`: the class has no constructor of its own, so the
arguments go to the base constructor unchanged. -/
def newApiError (message statusCode responseData : JsVal) : Js SdkError :=
  newEmailListCheckerError .ApiError message statusCode responseData

/-- `throw e` for a freshly constructed error; a throw during construction
propagates instead. -/
def throwNew {α : Type} (e : Js SdkError) : Js α :=
  match e with
  | .error t => .error t
  | .ok err => .error (.sdk err)

/-! ## `lib/client.js`: configuration and the dispatcher -/

/-- Fields the constructor stores on the client. -/
structure Client where
  apiKey : String
  baseUrl : String
  timeout : JsNum

/-- `s.replace(/\/$/, '')` on the characters of `s`: the pattern matches one
slash standing at the very end of the input, and that match is removed. -/
def replaceTrailingSlash : List Char → List Char
  | [] => []
  | [c] => if c = '/' then [] else [c]
  | c :: d :: rest => c :: replaceTrailingSlash (d :: rest)

/-- The default of the constructor's `baseUrl` parameter. -/
def defaultBaseUrl : String := "https://platform.emaillistchecker.io/api/v1"

/-- The constructor of `EmailListChecker`; `none` stands for an omitted
argument, which takes the parameter's default. -/
def Client.new (apiKey : String) (baseUrl : Option String) (timeout : Option JsNum) : Client :=
  { apiKey := apiKey
    baseUrl := String.mk (replaceTrailingSlash (baseUrl.getD defaultBaseUrl).data)
    timeout := timeout.getD (.int 30000) }

/-- The request configuration handed to `client.request`: `method`, `url`
and the spread `options` (`data`, `params`; `undefined` when not given). -/
structure Request where
  method : String
  url : String
  data : JsVal
  params : JsVal

/-- The `options` argument of `_request`. -/
structure Options where
  data : JsVal
  params : JsVal

/-- The default `options = \x7b\x7d`. -/
def Options.none : Options := { data := .undefined, params := .undefined }

/-- An HTTP response as axios presents it: status, decoded body and headers
(header names in lower case). -/
structure HttpResponse where
  status : Int
  data : JsVal
  headers : List (String × String)

/-- The error axios rejects with: `error.response` (absent when no response
was received), `error.code` and `error.message`. -/
structure AxiosError where
  response : Option HttpResponse
  code : Option String
  message : String

/-- How `await this.client.request(...)` settles.  With axios defaults a
response with status 200 to 299 fulfils the promise and every other completed
response rejects it with `error.response` set. -/
inductive Settled where
  | fulfilled (response : HttpResponse) : Settled
  | rejected (error : AxiosError) : Settled

/-- The transport: how the request given to `client.request` settles. -/
abbrev Transport := Request → Settled

/-- Header lookup `headers[name]`. -/
def header (name : String) : List (String × String) → Option String
  | [] => none
  | (k, v) :: rest => if k = name then some v else header name rest

/-- The expression `error.response.headers['retry-after'] || '60'`: the
header value unless it is missing or the empty string. -/
def retryAfterText (headers : List (String × String)) : String :=
  match header "retry-after" headers with
  | some v => if v.data != [] then v else "60"
  | none => "60"

/-- The `catch` block of `_request` for an error that carries a response. -/
def translateResponse {α : Type} (r : HttpResponse) : Js α :=
  let statusCode := r.status
  let responseData := r.data
  if statusCode = 429 then
    let retryAfter := parseInt (retryAfterText r.headers)
    throwNew (newRateLimitError
      (.str ("Rate limit exceeded. Retry after " ++ retryAfter.render ++ " seconds"))
      (.num retryAfter) (.num (.int statusCode)) responseData)
  else if statusCode = 401 then
    match getProp responseData "error" with
    | .error t => .error t
    | .ok v =>
      throwNew (newAuthenticationError (jsOr v (.str "Invalid API key"))
        (.num (.int statusCode)) responseData)
  else if statusCode = 402 then
    match getProp responseData "error" with
    | .error t => .error t
    | .ok v =>
      throwNew (newInsufficientCreditsError (jsOr v (.str "Insufficient credits"))
        (.num (.int statusCode)) responseData)
  else if statusCode = 422 then
    match getProp responseData "message" with
    | .error t => .error t
    | .ok v =>
      throwNew (newValidationError (jsOr v (.str "Validation error"))
        (.num (.int statusCode)) responseData)
  else
    match getProp responseData "error" with
    | .error t => .error t
    | .ok v =>
      throwNew (newApiError (jsOr v (.str ("API error: " ++ toString statusCode)))
        (.num (.int statusCode)) responseData)

/-- `EmailListChecker._request(method, endpoint, options)`. -/
def Client._request (c : Client) (net : Transport) (method endpoint : String)
    (options : Options) : Js JsVal :=
  match net { method := method, url := endpoint, data := options.data,
              params := options.params } with
  | .fulfilled response => .ok response.data
  | .rejected error =>
    match error.response with
    | some r => translateResponse r
    | none =>
      if error.code = some "ECONNABORTED" then
        throwNew (newEmailListCheckerError .EmailListCheckerError
          (.str ("Request timeout after " ++ c.timeout.render ++ "ms")) .undefined .undefined)
      else
        throwNew (newEmailListCheckerError .EmailListCheckerError
          (.str ("Request failed: " ++ error.message)) .undefined .undefined)

/-- The expression `response.data || response` that closes the unwrapping
operations. -/
def unwrap (response : JsVal) : Js JsVal :=
  match getProp response "data" with
  | .error t => .error t
  | .ok d => .ok (jsOr d response)

/-! ## `lib/client.js`: the public operations -/

/-- The test `v !== null`. -/
def notNull : JsVal → Bool
  | .null => false
  | _ => true

/-- The test `v === text` against a string literal. -/
def strictEqStr (v : JsVal) (text : String) : Bool :=
  match v with
  | .str s => s = text
  | _ => false

/-- The `params` object `verify` builds and sends as request body. -/
def verifyData (email timeout smtpCheck : JsVal) : JsVal :=
  let params := [("email", email), ("smtp_check", smtpCheck)]
  .obj (if notNull timeout then params ++ [("timeout", timeout)] else params)

/-- `verify(email, timeout = null, smtpCheck = true)`. -/
def Client.verify (c : Client) (net : Transport) (email timeout smtpCheck : JsVal) : Js JsVal :=
  let params := verifyData email (orDefault timeout .null) (orDefault smtpCheck (.bool true))
  match c._request net "POST" "/verify" { data := params, params := .undefined } with
  | .error t => .error t
  | .ok response => unwrap response

/-- The `data` object `verifyBatch` builds and sends as request body, from
the parameters after defaulting. -/
def verifyBatchData (emails name callbackUrl autoStart : JsVal) : JsVal :=
  let data := [("emails", emails), ("auto_start", autoStart)]
  let data1 := if truthy name then data ++ [("name", name)] else data
  let data2 := if truthy callbackUrl then data1 ++ [("callback_url", callbackUrl)] else data1
  .obj data2

/-- The request body of `verifyBatch(emails, name = null, callbackUrl = null,
autoStart = true)` for the arguments as passed (`undefined` for an omitted one). -/
def verifyBatchBody (emails name callbackUrl autoStart : JsVal) : JsVal :=
  verifyBatchData emails (orDefault name .null) (orDefault callbackUrl .null)
    (orDefault autoStart (.bool true))

/-- `verifyBatch(emails, name = null, callbackUrl = null, autoStart = true)`. -/
def Client.verifyBatch (c : Client) (net : Transport)
    (emails name callbackUrl autoStart : JsVal) : Js JsVal :=
  let data := verifyBatchBody emails name callbackUrl autoStart
  match c._request net "POST" "/verify/batch" { data := data, params := .undefined } with
  | .error t => .error t
  | .ok response => unwrap response

/-- `getBatchStatus(batchId)`. -/
def Client.getBatchStatus (c : Client) (net : Transport) (batchId : JsNum) : Js JsVal :=
  match c._request net "GET" ("/verify/batch/" ++ batchId.render) Options.none with
  | .error t => .error t
  | .ok response => unwrap response

/-- The query object of `getBatchResults(batchId, format = 'json',
filter = 'all')` for the arguments as passed. -/
def batchResultsParams (format filter : JsVal) : JsVal :=
  .obj [("format", orDefault format (.str "json")), ("filter", orDefault filter (.str "all"))]

/-- `getBatchResults(batchId, format = 'json', filter = 'all')`. -/
def Client.getBatchResults (c : Client) (net : Transport) (batchId : JsNum)
    (format filter : JsVal) : Js JsVal :=
  match c._request net "GET" ("/verify/batch/" ++ batchId.render ++ "/results")
      { data := .undefined, params := batchResultsParams format filter } with
  | .error t => .error t
  | .ok response =>
    if strictEqStr (orDefault format (.str "json")) "json" then unwrap response
    else .ok response

/-- `findEmail(firstName, lastName, domain)`. -/
def Client.findEmail (c : Client) (net : Transport) (firstName lastName domain : JsVal) :
    Js JsVal :=
  match c._request net "POST" "/finder/email"
      { data := .obj [("first_name", firstName), ("last_name", lastName), ("domain", domain)],
        params := .undefined } with
  | .error t => .error t
  | .ok response => unwrap response

/-- `findByDomain(domain, limit = 10, offset = 0)`. -/
def Client.findByDomain (c : Client) (net : Transport) (domain limit offset : JsVal) :
    Js JsVal :=
  match c._request net "POST" "/finder/domain"
      { data := .obj [("domain", domain), ("limit", orDefault limit (.num (.int 10))),
                      ("offset", orDefault offset (.num (.int 0)))],
        params := .undefined } with
  | .error t => .error t
  | .ok response => unwrap response

/-- `findByCompany(company, limit = 10)`. -/
def Client.findByCompany (c : Client) (net : Transport) (company limit : JsVal) : Js JsVal :=
  match c._request net "POST" "/finder/company"
      { data := .obj [("company", company), ("limit", orDefault limit (.num (.int 10)))],
        params := .undefined } with
  | .error t => .error t
  | .ok response => unwrap response

/-- `getCredits()`. -/
def Client.getCredits (c : Client) (net : Transport) : Js JsVal :=
  match c._request net "GET" "/credits" Options.none with
  | .error t => .error t
  | .ok response => unwrap response

/-- `getUsage()`. -/
def Client.getUsage (c : Client) (net : Transport) : Js JsVal :=
  match c._request net "GET" "/usage" Options.none with
  | .error t => .error t
  | .ok response => unwrap response

/-- `getLists()`. -/
def Client.getLists (c : Client) (net : Transport) : Js JsVal :=
  match c._request net "GET" "/lists" Options.none with
  | .error t => .error t
  | .ok response => unwrap response

/-- `deleteList(listId)`: the dispatcher's result is returned as it is. -/
def Client.deleteList (c : Client) (net : Transport) (listId : JsNum) : Js JsVal :=
  c._request net "DELETE" ("/lists/" ++ listId.render) Options.none

/-! ## Specification-side definitions -/

/-- The unwrap rule in the words of the specification: the `data` field when
the decoded body has one, else the decoded body itself. -/
def unwrapPayloadSpec (b : JsVal) : JsVal :=
  match b with
  | .obj fields =>
    match lookupField "data" fields with
    | some d => d
    | none => b
  | _ => b

/-- The field `k` of a decoded body, in the sense of the specification: the
own property of an object; a body that is not an object has no fields. -/
def fieldOf (b : JsVal) (k : String) : Option JsVal :=
  match b with
  | .obj fields => lookupField k fields
  | _ => none

/-- Each of the nine operations that end in `response.data || response`,
on any arguments, gives `res`. -/
def UnwrappingOpsGive (c : Client) (net : Transport) (res : Js JsVal) : Prop :=
  (∀ email timeout smtpCheck, c.verify net email timeout smtpCheck = res) ∧
  (∀ emails name callbackUrl autoStart,
    c.verifyBatch net emails name callbackUrl autoStart = res) ∧
  (∀ batchId, c.getBatchStatus net batchId = res) ∧
  (∀ firstName lastName domain, c.findEmail net firstName lastName domain = res) ∧
  (∀ domain limit offset, c.findByDomain net domain limit offset = res) ∧
  (∀ company limit, c.findByCompany net company limit = res) ∧
  c.getCredits net = res ∧ c.getUsage net = res ∧ c.getLists net = res

/-- The variant the table of the specification assigns to a status code. -/
def variantOf (status : Int) : ErrorClass :=
  if status = 429 then .RateLimitError
  else if status = 401 then .AuthenticationError
  else if status = 402 then .InsufficientCreditsError
  else if status = 422 then .ValidationError
  else .ApiError

/-- The body field the specification names as source of the message. -/
def messageKey (status : Int) : String :=
  if status = 422 then "message" else "error"

/-- The fixed default message the specification gives for a status code
other than 429. -/
def defaultMessage (status : Int) : String :=
  if status = 401 then "Invalid API key"
  else if status = 402 then "Insufficient credits"
  else if status = 422 then "Validation error"
  else "API error: " ++ toString status

/-- A client built with the default endpoint and timeout. -/
def sampleClient : Client := Client.new "key" none none

/-- A response with status 200, decoded body `b` and no headers. -/
def okResponse (b : JsVal) : HttpResponse :=
  { status := 200, data := b, headers := [] }

/-- The transport on which every request is fulfilled with `r`. -/
def fulfilWith (r : HttpResponse) : Transport := fun _ => .fulfilled r

/-- The error axios builds for a completed response whose status fails
`validateStatus`: the response itself, the code `ERR_BAD_REQUEST` for a 4xx
status and `ERR_BAD_RESPONSE` for a 5xx one, and a message naming the status. -/
def statusError (r : HttpResponse) : AxiosError :=
  { response := some r
    code := if r.status / 100 = 4 then some "ERR_BAD_REQUEST"
            else if r.status / 100 = 5 then some "ERR_BAD_RESPONSE" else none
    message := "Request failed with status code " ++ toString r.status }

/-- The transport on which every request is rejected with the error for the
response `r`. -/
def rejectWith (r : HttpResponse) : Transport :=
  fun _ => .rejected (statusError r)

/-- The body `\x7b"foo": 1\x7d`. -/
def fooBody : JsVal := .obj [("foo", .num (.int 1))]

/-! ## Shared lemmas -/

theorem request_of_fulfilled (c : Client) (net : Transport) (method endpoint : String)
    (options : Options) (r : HttpResponse)
    (h : net { method := method, url := endpoint, data := options.data,
               params := options.params } = .fulfilled r) :
    c._request net method endpoint options = .ok r.data := by
  simp [Client._request, h]

theorem request_of_rejected_response (c : Client) (net : Transport)
    (method endpoint : String) (options : Options) (e : AxiosError) (r : HttpResponse)
    (h : net { method := method, url := endpoint, data := options.data,
               params := options.params } = .rejected e)
    (hr : e.response = some r) :
    c._request net method endpoint options = translateResponse r := by
  simp [Client._request, h, hr]

theorem unwrappingOps_eq_unwrap (c : Client) (net : Transport) (r : HttpResponse)
    (h : ∀ req, net req = .fulfilled r) :
    UnwrappingOpsGive c net (unwrap r.data) := by
  simp [UnwrappingOpsGive, Client.verify, Client.verifyBatch, Client.getBatchStatus,
    Client.findEmail, Client.findByDomain, Client.findByCompany, Client.getCredits,
    Client.getUsage, Client.getLists, Client._request, h]

theorem unwrap_obj_truthy (fields : List (String × JsVal)) (d : JsVal)
    (hd : lookupField "data" fields = some d) (ht : truthy d = true) :
    unwrap (.obj fields) = .ok d := by
  simp [unwrap, getProp, hd, jsOr, ht]

theorem unwrap_obj_falsy (fields : List (String × JsVal)) (d : JsVal)
    (hd : lookupField "data" fields = some d) (ht : truthy d = false) :
    unwrap (.obj fields) = .ok (.obj fields) := by
  simp [unwrap, getProp, hd, jsOr, ht]

theorem unwrap_obj_absent (fields : List (String × JsVal))
    (hd : lookupField "data" fields = none) :
    unwrap (.obj fields) = .ok (.obj fields) := by
  simp [unwrap, getProp, hd, jsOr, truthy]

theorem unwrap_not_obj (b : JsVal) (h1 : b ≠ .null) (h2 : b ≠ .undefined)
    (h3 : ∀ fields, b ≠ .obj fields) : unwrap b = .ok b := by
  cases b with
  | undefined => exact absurd rfl h2
  | null => exact absurd rfl h1
  | obj fields => exact absurd rfl (h3 fields)
  | bool b => simp [unwrap, getProp, jsOr, truthy]
  | num x => simp [unwrap, getProp, jsOr, truthy]
  | str s => simp [unwrap, getProp, jsOr, truthy]
  | arr xs => simp [unwrap, getProp, jsOr, truthy]

theorem lookupField_sizeOf (k : String) (fields : List (String × JsVal)) (d : JsVal)
    (h : lookupField k fields = some d) : sizeOf d < sizeOf fields := by
  induction fields with
  | nil => simp [lookupField] at h
  | cons p rest ih =>
    obtain ⟨k2, v⟩ := p
    simp only [lookupField] at h
    split_ifs at h with hk
    · have hv : v = d := Option.some.inj h
      subst hv
      simp
      omega
    · have := ih h
      simp
      omega

theorem field_ne_object (k : String) (fields : List (String × JsVal)) (d : JsVal)
    (h : lookupField k fields = some d) : d ≠ .obj fields := by
  intro hd
  have hlt := lookupField_sizeOf k fields d h
  rw [hd] at hlt
  simp at hlt

/-! ## Envelope unwrap -/

/-- C2, as stated, fails: for the fulfilled body with `data` equal to `0`,
`verify` returns the whole body, while the rule in the specification asks
for the field, the number `0`. -/
theorem verify_falsy_data_returns_body :
    sampleClient.verify (fulfilWith (okResponse (.obj [("data", .num (.int 0))])))
        (.str "a@b.c") .undefined .undefined
      = .ok (.obj [("data", .num (.int 0))]) ∧
    unwrapPayloadSpec (.obj [("data", .num (.int 0))]) = .num (.int 0) ∧
    sampleClient.verify (fulfilWith (okResponse (.obj [("data", .num (.int 0))])))
        (.str "a@b.c") .undefined .undefined
      ≠ .ok (unwrapPayloadSpec (.obj [("data", .num (.int 0))])) := by
  refine ⟨rfl, rfl, ?_⟩
  intro h
  cases h

/-- C2, amended: when every request is fulfilled with a response whose decoded
body is `b`, each of the nine unwrapping operations returns the `data` field
of `b` if `b` is an object whose `data` field is truthy, and returns `b`
itself if `b` is an object whose `data` field is falsy or absent, or if `b`
is a boolean, number, string or array. -/
theorem unwrapping_ops_return_truthy_data_else_body (c : Client) (net : Transport)
    (r : HttpResponse) (h : ∀ req, net req = .fulfilled r) :
    (∀ fields d, r.data = .obj fields → lookupField "data" fields = some d →
      truthy d = true → UnwrappingOpsGive c net (.ok d)) ∧
    (∀ fields d, r.data = .obj fields → lookupField "data" fields = some d →
      truthy d = false → UnwrappingOpsGive c net (.ok r.data)) ∧
    (∀ fields, r.data = .obj fields → lookupField "data" fields = none →
      UnwrappingOpsGive c net (.ok r.data)) ∧
    (r.data ≠ .null → r.data ≠ .undefined → (∀ fields, r.data ≠ .obj fields) →
      UnwrappingOpsGive c net (.ok r.data)) := by
  have key := unwrappingOps_eq_unwrap c net r h
  refine ⟨?_, ?_, ?_, ?_⟩
  · intro fields d hb hd ht
    rw [hb, unwrap_obj_truthy fields d hd ht] at key
    exact key
  · intro fields d hb hd ht
    rw [hb, unwrap_obj_falsy fields d hd ht] at key
    rw [hb]; exact key
  · intro fields hb hd
    rw [hb, unwrap_obj_absent fields hd] at key
    rw [hb]; exact key
  · intro h1 h2 h3
    rw [unwrap_not_obj r.data h1 h2 h3] at key
    exact key

/-- Witness for C2: the two bodies of the specification. The body with `data`
holding `fooBody` gives `fooBody`, and `fooBody` alone gives itself. -/
theorem unwrapping_ops_return_truthy_data_else_body_witness :
    UnwrappingOpsGive sampleClient (fulfilWith (okResponse (.obj [("data", fooBody)])))
      (.ok fooBody) ∧
    UnwrappingOpsGive sampleClient (fulfilWith (okResponse fooBody)) (.ok fooBody) :=
  ⟨(unwrapping_ops_return_truthy_data_else_body sampleClient
      (fulfilWith (okResponse (.obj [("data", fooBody)])))
      (okResponse (.obj [("data", fooBody)])) (fun _ => rfl)).1
      [("data", fooBody)] fooBody rfl rfl rfl,
   (unwrapping_ops_return_truthy_data_else_body sampleClient
      (fulfilWith (okResponse fooBody)) (okResponse fooBody) (fun _ => rfl)).2.2.1
      [("foo", .num (.int 1))] rfl rfl⟩

/-! ## Which operations unwrap -/

/-- C9, as stated, fails: `deleteList` on a fulfilled body that has a `data`
field returns the whole body, not the field. -/
theorem deleteList_returns_whole_body :
    lookupField "data" [("data", fooBody)] = some fooBody ∧
    sampleClient.deleteList (fulfilWith (okResponse (.obj [("data", fooBody)]))) (.int 7)
      = .ok (.obj [("data", fooBody)]) ∧
    sampleClient.deleteList (fulfilWith (okResponse (.obj [("data", fooBody)]))) (.int 7)
      ≠ .ok fooBody := by
  refine ⟨rfl, rfl, ?_⟩
  intro h
  have h2 : (JsVal.obj [("data", fooBody)]) = fooBody := Except.ok.inj h
  simp [fooBody] at h2

/-- C9, amended: when every request is fulfilled with a response of decoded
body `b`, `deleteList` and `getBatchResults` with a format other than `json`
return `b` as it is, and if `b` is an object with a truthy `data` field then
the nine unwrapping operations and `getBatchResults` with format `json` (given
or by default) return that field. -/
theorem raw_body_only_from_deleteList_and_non_json_results (c : Client) (net : Transport)
    (r : HttpResponse) (h : ∀ req, net req = .fulfilled r) :
    (∀ listId, c.deleteList net listId = .ok r.data) ∧
    (∀ batchId format filter, format ≠ .undefined → format ≠ .str "json" →
      c.getBatchResults net batchId format filter = .ok r.data) ∧
    (∀ fields d, r.data = .obj fields → lookupField "data" fields = some d →
      truthy d = true →
      d ≠ r.data ∧
      UnwrappingOpsGive c net (.ok d) ∧
      (∀ batchId filter, c.getBatchResults net batchId (.str "json") filter = .ok d) ∧
      (∀ batchId filter, c.getBatchResults net batchId .undefined filter = .ok d)) := by
  refine ⟨?_, ?_, ?_⟩
  · intro listId
    simp [Client.deleteList, Client._request, h]
  · intro batchId format filter h1 h2
    have hne : strictEqStr (orDefault format (.str "json")) "json" = false := by
      cases format with
      | undefined => exact absurd rfl h1
      | str t =>
        have : t ≠ "json" := fun ht => h2 (by rw [ht])
        simp [orDefault, strictEqStr, this]
      | null => rfl
      | bool b => rfl
      | num x => rfl
      | arr xs => rfl
      | obj fs => rfl
    simp [Client.getBatchResults, Client._request, h, hne]
  · intro fields d hb hd ht
    have key := unwrappingOps_eq_unwrap c net r h
    rw [hb, unwrap_obj_truthy fields d hd ht] at key
    refine ⟨?_, key, ?_, ?_⟩
    · rw [hb]
      exact field_ne_object "data" fields d hd
    · intro batchId filter
      simp [Client.getBatchResults, Client._request, h, orDefault, strictEqStr, hb,
        unwrap_obj_truthy fields d hd ht]
    · intro batchId filter
      simp [Client.getBatchResults, Client._request, h, orDefault, strictEqStr, hb,
        unwrap_obj_truthy fields d hd ht]

/-- Witness for C9 on the body whose `data` field holds `fooBody`. -/
theorem raw_body_only_from_deleteList_and_non_json_results_witness :
    (∀ listId, sampleClient.deleteList
        (fulfilWith (okResponse (.obj [("data", fooBody)]))) listId
        = .ok (.obj [("data", fooBody)])) ∧
    sampleClient.getBatchResults (fulfilWith (okResponse (.obj [("data", fooBody)])))
        (.int 7) (.str "csv") .undefined = .ok (.obj [("data", fooBody)]) ∧
    UnwrappingOpsGive sampleClient (fulfilWith (okResponse (.obj [("data", fooBody)])))
      (.ok fooBody) :=
  have w := raw_body_only_from_deleteList_and_non_json_results sampleClient
    (fulfilWith (okResponse (.obj [("data", fooBody)])))
    (okResponse (.obj [("data", fooBody)])) (fun _ => rfl)
  ⟨w.1, w.2.1 (.int 7) (.str "csv") .undefined (fun e => by cases e)
      (fun e => by simp at e),
    (w.2.2 [("data", fooBody)] fooBody rfl rfl rfl).2.1⟩

/-! ## `getBatchResults` -/

theorem strictEqStr_json_false (format : JsVal) (h1 : format ≠ .undefined)
    (h2 : format ≠ .str "json") :
    strictEqStr (orDefault format (.str "json")) "json" = false := by
  cases format with
  | undefined => exact absurd rfl h1
  | str t =>
    have : t ≠ "json" := fun ht => h2 (by rw [ht])
    simp [orDefault, strictEqStr, this]
  | null => rfl
  | bool b => rfl
  | num x => rfl
  | arr xs => rfl
  | obj fs => rfl

/-- C6, as stated, fails: with format `json` and the fulfilled body whose
`data` field is `0`, `getBatchResults` returns the whole body, while the
unwrap rule of the specification gives the field, the number `0`. -/
theorem getBatchResults_json_falsy_data_returns_body :
    sampleClient.getBatchResults (fulfilWith (okResponse (.obj [("data", .num (.int 0))])))
        (.int 7) (.str "json") (.str "all")
      = .ok (.obj [("data", .num (.int 0))]) ∧
    unwrapPayloadSpec (.obj [("data", .num (.int 0))]) = .num (.int 0) ∧
    sampleClient.getBatchResults (fulfilWith (okResponse (.obj [("data", .num (.int 0))])))
        (.int 7) (.str "json") (.str "all")
      ≠ .ok (unwrapPayloadSpec (.obj [("data", .num (.int 0))])) := by
  refine ⟨rfl, rfl, ?_⟩
  intro h
  cases h

/-- C6, amended: `getBatchResults` sends a `GET` to the results path of the
batch with the query object made of `format` and `filter` (defaults `json`
and `all`); the batch id is a number printed in decimal digits (of magnitude
below 10^21) or `NaN`. When that request is fulfilled with decoded body `b`, a format
other than `json` returns `b` unmodified, whatever `b` is; format `json`,
given or by default, returns the `data` field of `b` if `b` is an object
whose `data` field is truthy, and `b` itself if `b` is an object whose `data`
field is falsy or absent, or if `b` is a boolean, number, string or array. -/
theorem getBatchResults_unwraps_only_json (c : Client) (net : Transport) (r : HttpResponse)
    (batchId : JsNum) (format filter : JsVal)
    (hid : batchId.rendersExactly = true)
    (h : net { method := "GET"
               url := "/verify/batch/" ++ batchId.render ++ "/results"
               data := .undefined
               params := .obj [("format", orDefault format (.str "json")),
                               ("filter", orDefault filter (.str "all"))] } = .fulfilled r) :
    (format ≠ .undefined → format ≠ .str "json" →
      c.getBatchResults net batchId format filter = .ok r.data) ∧
    (format = .undefined ∨ format = .str "json" →
      (∀ fields d, r.data = .obj fields → lookupField "data" fields = some d →
        truthy d = true → c.getBatchResults net batchId format filter = .ok d) ∧
      (∀ fields d, r.data = .obj fields → lookupField "data" fields = some d →
        truthy d = false → c.getBatchResults net batchId format filter = .ok r.data) ∧
      (∀ fields, r.data = .obj fields → lookupField "data" fields = none →
        c.getBatchResults net batchId format filter = .ok r.data) ∧
      (r.data ≠ .null → r.data ≠ .undefined → (∀ fields, r.data ≠ .obj fields) →
        c.getBatchResults net batchId format filter = .ok r.data)) ∧
    orDefault .undefined (.str "json") = .str "json" ∧
    orDefault .undefined (.str "all") = .str "all" := by
  have hreq : c._request net "GET" ("/verify/batch/" ++ batchId.render ++ "/results")
      { data := .undefined, params := batchResultsParams format filter } = .ok r.data :=
    request_of_fulfilled c net _ _ _ r h
  refine ⟨?_, ?_, rfl, rfl⟩
  · intro h1 h2
    simp [Client.getBatchResults, hreq, strictEqStr_json_false format h1 h2]
  · intro hf
    have heq : strictEqStr (orDefault format (.str "json")) "json" = true := by
      rcases hf with hf | hf <;> rw [hf] <;> simp [orDefault, strictEqStr]
    have hres : c.getBatchResults net batchId format filter = unwrap r.data := by
      simp [Client.getBatchResults, hreq, heq]
    rw [hres]
    refine ⟨?_, ?_, ?_, ?_⟩
    · intro fields d hb hd ht
      rw [hb, unwrap_obj_truthy fields d hd ht]
    · intro fields d hb hd ht
      rw [hb, unwrap_obj_falsy fields d hd ht]
    · intro fields hb hd
      rw [hb, unwrap_obj_absent fields hd]
    · intro h1 h2 h3
      exact unwrap_not_obj r.data h1 h2 h3

/-- Witness for C6 on the body whose `data` field holds `fooBody`: format
`csv` returns the enveloped body unmodified, the default format returns
`fooBody`; and on the body `fooBody`, format `json` returns `fooBody`. -/
theorem getBatchResults_unwraps_only_json_witness :
    sampleClient.getBatchResults (fulfilWith (okResponse (.obj [("data", fooBody)])))
        (.int 7) (.str "csv") .undefined = .ok (.obj [("data", fooBody)]) ∧
    sampleClient.getBatchResults (fulfilWith (okResponse (.obj [("data", fooBody)])))
        (.int 7) .undefined .undefined = .ok fooBody ∧
    sampleClient.getBatchResults (fulfilWith (okResponse fooBody))
        (.int 7) (.str "json") (.str "valid") = .ok fooBody :=
  ⟨(getBatchResults_unwraps_only_json sampleClient
      (fulfilWith (okResponse (.obj [("data", fooBody)])))
      (okResponse (.obj [("data", fooBody)])) (.int 7) (.str "csv") .undefined rfl rfl).1
      (fun e => by cases e) (fun e => by simp at e),
   ((getBatchResults_unwraps_only_json sampleClient
      (fulfilWith (okResponse (.obj [("data", fooBody)])))
      (okResponse (.obj [("data", fooBody)])) (.int 7) .undefined .undefined rfl rfl).2.1
      (Or.inl rfl)).1 [("data", fooBody)] fooBody rfl rfl rfl,
   ((getBatchResults_unwraps_only_json sampleClient
      (fulfilWith (okResponse fooBody))
      (okResponse fooBody) (.int 7) (.str "json") (.str "valid") rfl rfl).2.1
      (Or.inr rfl)).2.2.1 [("foo", .num (.int 1))] rfl rfl⟩

/-! ## `verifyBatch` request body -/

/-- C5, as stated, fails: the empty string is a supplied name that is not
`null`, and the body sent for it has no `name` field. -/
theorem verifyBatch_empty_name_omitted :
    notNull (.str "") = true ∧
    verifyBatchBody (.arr [.str "a@b.c"]) (.str "") .undefined .undefined
      = .obj [("emails", .arr [.str "a@b.c"]), ("auto_start", .bool true)] ∧
    lookupField "name" [("emails", .arr [.str "a@b.c"]), ("auto_start", .bool true)] = none :=
  ⟨rfl, rfl, rfl⟩

/-- C5, amended: the body `verifyBatch` transmits holds `emails` as given and
`auto_start` equal to `autoStart` (`true` when omitted), then `name` exactly
when the name is truthy and `callback_url` exactly when the callback URL is
truthy, each with the given value, and nothing else; the operation posts that
body to `/verify/batch`. -/
theorem verifyBatch_body_fields (emails name callbackUrl autoStart : JsVal) :
    verifyBatchBody emails name callbackUrl autoStart
      = .obj ([("emails", emails), ("auto_start", orDefault autoStart (.bool true))]
          ++ (if truthy name = true then [("name", name)] else [])
          ++ (if truthy callbackUrl = true then [("callback_url", callbackUrl)] else [])) ∧
    (∀ (c : Client) (net : Transport) (r : HttpResponse),
      net { method := "POST", url := "/verify/batch",
            data := verifyBatchBody emails name callbackUrl autoStart,
            params := .undefined } = .fulfilled r →
      c.verifyBatch net emails name callbackUrl autoStart = unwrap r.data) := by
  constructor
  · have hn : ∀ v : JsVal, truthy (orDefault v .null) = truthy v := by
      intro v; cases v <;> rfl
    have hv : ∀ v : JsVal, truthy v = true → orDefault v .null = v := by
      intro v hv; cases v <;> simp_all [orDefault, truthy]
    simp only [verifyBatchBody, verifyBatchData, hn]
    by_cases h1 : truthy name = true <;> by_cases h2 : truthy callbackUrl = true <;>
      simp [h1, h2, hv]
  · intro c net r h
    simp [Client.verifyBatch, Client._request, h]

/-- Witness for C5: a request fulfilled with `fooBody` for a named batch. -/
theorem verifyBatch_body_fields_witness :
    verifyBatchBody (.arr [.str "a@b.c"]) (.str "spring") .undefined .undefined
      = .obj [("emails", .arr [.str "a@b.c"]), ("auto_start", .bool true),
              ("name", .str "spring")] ∧
    sampleClient.verifyBatch (fulfilWith (okResponse fooBody)) (.arr [.str "a@b.c"])
      (.str "spring") .undefined .undefined = unwrap fooBody :=
  ⟨(verifyBatch_body_fields (.arr [.str "a@b.c"]) (.str "spring") .undefined .undefined).1,
   (verifyBatch_body_fields (.arr [.str "a@b.c"]) (.str "spring") .undefined .undefined).2
      sampleClient (fulfilWith (okResponse fooBody)) (okResponse fooBody) rfl⟩

/-! ## Base endpoint -/

theorem replaceTrailingSlash_append_slash (p : List Char) :
    replaceTrailingSlash (p ++ ['/']) = p := by
  induction p with
  | nil => simp [replaceTrailingSlash]
  | cons c q ih =>
    cases q with
    | nil => simp [replaceTrailingSlash]
    | cons d q2 =>
      simp only [List.cons_append] at ih ⊢
      rw [replaceTrailingSlash, ih]

theorem replaceTrailingSlash_of_no_slash (l : List Char) (h : l.getLast? ≠ some '/') :
    replaceTrailingSlash l = l := by
  induction l with
  | nil => rfl
  | cons c q ih =>
    cases q with
    | nil =>
      have hc : c ≠ '/' := fun hc => h (by simp [hc])
      simp [replaceTrailingSlash, hc]
    | cons d q2 =>
      rw [replaceTrailingSlash, ih]
      simpa [List.getLast?_cons_cons] using h

theorem replaceTrailingSlash_last (l : List Char) (h : ∀ p, l ≠ p ++ ['/', '/']) :
    (replaceTrailingSlash l).getLast? ≠ some '/' := by
  rcases List.eq_nil_or_concat l with hl | ⟨p, c, hl⟩
  · subst hl; simp [replaceTrailingSlash]
  · rw [List.concat_eq_append] at hl
    subst hl
    by_cases hc : c = '/'
    · subst hc
      rw [replaceTrailingSlash_append_slash]
      intro hp
      rcases List.eq_nil_or_concat p with hp2 | ⟨p2, c2, hp2⟩
      · subst hp2; simp at hp
      · rw [List.concat_eq_append] at hp2
        subst hp2
        simp at hp
        subst hp
        exact h p2 (by simp)
    · have hlast : (p ++ [c]).getLast? ≠ some '/' := by simpa using hc
      rw [replaceTrailingSlash_of_no_slash _ hlast]
      exact hlast

/-- C7, as stated, fails: an endpoint that ends in two slashes is stored with
one of them left, so the stored value still ends with a slash. -/
theorem baseUrl_double_slash_keeps_one :
    (Client.new "key" (some "https://x/api//") none).baseUrl = "https://x/api/" ∧
    (Client.new "key" (some "https://x/api//") none).baseUrl.data.getLast? = some '/' := by
  constructor <;> decide

/-- C7, amended: the constructor stores the base endpoint with one trailing
slash removed. A base endpoint that is `p` followed by a slash is stored as
`p`, one without a trailing slash is stored unchanged, and the stored value
does not end with a slash whenever the given one does not end with two
slashes, so that appending a path that begins with one slash puts no double
slash at the joint. -/
theorem baseUrl_one_trailing_slash_removed (apiKey url : String) (timeout : Option JsNum) :
    (∀ p, url.data = p ++ ['/'] →
      (Client.new apiKey (some url) timeout).baseUrl = String.mk p) ∧
    (url.data.getLast? ≠ some '/' →
      (Client.new apiKey (some url) timeout).baseUrl = url) ∧
    ((∀ p, url.data ≠ p ++ ['/', '/']) →
      (Client.new apiKey (some url) timeout).baseUrl.data.getLast? ≠ some '/') := by
  refine ⟨?_, ?_, ?_⟩
  · intro p hp
    simp [Client.new, hp, replaceTrailingSlash_append_slash]
  · intro h
    simp [Client.new, replaceTrailingSlash_of_no_slash _ h]
  · intro h
    simpa [Client.new] using replaceTrailingSlash_last url.data h

/-- Witness for C7: the endpoint of the specification is stored without its
trailing slash. -/
theorem baseUrl_one_trailing_slash_removed_witness :
    (Client.new "key" (some "https://x/api/") none).baseUrl = "https://x/api" :=
  (baseUrl_one_trailing_slash_removed "key" "https://x/api/" none).1
    "https://x/api".data (by decide)

/-! ## Transport failures -/

/-- C8: when the transport rejects the request with an error that carries no
response, `_request` throws an `EmailListCheckerError` of the base class with
`statusCode` and `responseData` both `null`; its message is
`Request timeout after Tms`, with `T` the configured timeout, when the error
code is `ECONNABORTED`, and `Request failed: ` followed by the message of the
transport error otherwise. The configured timeout is a number printed in
decimal digits (of magnitude below 10^21) or `NaN`. -/
theorem request_transport_failure (c : Client) (net : Transport) (method endpoint : String)
    (options : Options) (e : AxiosError)
    (hT : c.timeout.rendersExactly = true)
    (h : net { method := method, url := endpoint, data := options.data,
               params := options.params } = .rejected e)
    (hr : e.response = none) :
    c._request net method endpoint options
      = .error (.sdk
          { name := .EmailListCheckerError
            message :=
              if e.code = some "ECONNABORTED" then
                "Request timeout after " ++ c.timeout.render ++ "ms"
              else "Request failed: " ++ e.message
            statusCode := .null
            responseData := .null
            retryAfter := none }) := by
  by_cases hc : e.code = some "ECONNABORTED" <;>
    simp [Client._request, h, hr, hc, throwNew, newEmailListCheckerError, errorMessage,
      toStr, orDefault]

/-- Witness for C8: a timeout on a client configured with 1500 ms. -/
theorem request_transport_failure_witness :
    (Client.new "key" none (some (.int 1500)))._request
        (fun _ => .rejected { response := none, code := some "ECONNABORTED",
                              message := "timeout of 1500ms exceeded" })
        "GET" "/credits" Options.none
      = .error (.sdk
          { name := .EmailListCheckerError
            message := "Request timeout after 1500ms"
            statusCode := .null
            responseData := .null
            retryAfter := none }) :=
  request_transport_failure (Client.new "key" none (some (.int 1500)))
    (fun _ => .rejected { response := none, code := some "ECONNABORTED",
                          message := "timeout of 1500ms exceeded" })
    "GET" "/credits" Options.none
    { response := none, code := some "ECONNABORTED", message := "timeout of 1500ms exceeded" }
    (by decide) rfl rfl

/-! ## Error translation -/

theorem translateResponse_obj (r : HttpResponse) (fields : List (String × JsVal))
    (hb : r.data = .obj fields) (hs : r.status ≠ 429) :
    (translateResponse r : Js JsVal)
      = throwNew (newEmailListCheckerError (variantOf r.status)
          (jsOr ((lookupField (messageKey r.status) fields).getD .undefined)
            (.str (defaultMessage r.status)))
          (.num (.int r.status)) (.obj fields)) := by
  by_cases h1 : r.status = 401
  · simp [translateResponse, h1, hb, getProp, variantOf, messageKey, defaultMessage,
      newAuthenticationError, orDefault]
  · by_cases h2 : r.status = 402
    · simp [translateResponse, h2, hb, getProp, variantOf, messageKey, defaultMessage,
        newInsufficientCreditsError, orDefault]
    · by_cases h3 : r.status = 422
      · simp [translateResponse, h3, hb, getProp, variantOf, messageKey, defaultMessage,
          newValidationError, orDefault]
      · simp [translateResponse, hs, h1, h2, h3, hb, getProp, variantOf, messageKey,
          defaultMessage, newApiError]

theorem throwNew_of_string_message (cls : ErrorClass) (m : String) (status : Int)
    (fields : List (String × JsVal)) :
    (throwNew (newEmailListCheckerError cls (.str m) (.num (.int status)) (.obj fields))
        : Js JsVal)
      = .error (.sdk { name := cls, message := m, statusCode := .num (.int status),
                       responseData := .obj fields, retryAfter := none }) := by
  simp [throwNew, newEmailListCheckerError, errorMessage, toStr, orDefault]

theorem orDefault_num (x : JsNum) (d : JsVal) : orDefault (.num x) d = .num x := rfl

theorem orDefault_idem (v : JsVal) : orDefault (orDefault v .null) .null = orDefault v .null := by
  cases v <;> rfl

theorem getProp_eq_fieldOf (b : JsVal) (k : String) (hn : b ≠ .null)
    (hu : b ≠ .undefined) : getProp b k = .ok ((fieldOf b k).getD .undefined) := by
  cases b with
  | undefined => exact absurd rfl hu
  | null => exact absurd rfl hn
  | obj fields => rfl
  | bool x => rfl
  | num x => rfl
  | str x => rfl
  | arr xs => rfl

theorem orDefault_of_ne_undefined (v d : JsVal) (hu : v ≠ .undefined) : orDefault v d = v := by
  cases v <;> first | rfl | exact absurd rfl hu

theorem translateResponse_of_body (r : HttpResponse) (hn : r.data ≠ .null)
    (hu : r.data ≠ .undefined) (hs : r.status ≠ 429) :
    (translateResponse r : Js JsVal)
      = throwNew (newEmailListCheckerError (variantOf r.status)
          (jsOr ((fieldOf r.data (messageKey r.status)).getD .undefined)
            (.str (defaultMessage r.status)))
          (.num (.int r.status)) r.data) := by
  have hd := orDefault_of_ne_undefined r.data .null hu
  by_cases h1 : r.status = 401
  · simp [translateResponse, h1, getProp_eq_fieldOf r.data "error" hn hu, variantOf,
      messageKey, defaultMessage, newAuthenticationError, orDefault_num, hd]
  · by_cases h2 : r.status = 402
    · simp [translateResponse, h2, getProp_eq_fieldOf r.data "error" hn hu, variantOf,
        messageKey, defaultMessage, newInsufficientCreditsError, orDefault_num, hd]
    · by_cases h3 : r.status = 422
      · simp [translateResponse, h3, getProp_eq_fieldOf r.data "message" hn hu, variantOf,
          messageKey, defaultMessage, newValidationError, orDefault_num, hd]
      · simp [translateResponse, hs, h1, h2, h3, getProp_eq_fieldOf r.data "error" hn hu,
          variantOf, messageKey, defaultMessage, newApiError]

theorem throwNew_of_converted_message (cls : ErrorClass) (v : JsVal) (m : String)
    (status : Int) (rd : JsVal) (ht : truthy v = true) (hm : toStr v = .ok m)
    (hu : rd ≠ .undefined) :
    (throwNew (newEmailListCheckerError cls v (.num (.int status)) rd) : Js JsVal)
      = .error (.sdk { name := cls, message := m, statusCode := .num (.int status),
                       responseData := rd, retryAfter := none }) := by
  have he : errorMessage v = .ok m := by
    cases v with
    | undefined => simp [truthy] at ht
    | null => simpa [errorMessage] using hm
    | bool x => simpa [errorMessage] using hm
    | num x => simpa [errorMessage] using hm
    | str x => simpa [errorMessage] using hm
    | arr xs => simpa [errorMessage] using hm
    | obj fs => simpa [errorMessage] using hm
  simp [throwNew, newEmailListCheckerError, he, orDefault_num,
    orDefault_of_ne_undefined rd .null hu]

/-- C4, as stated, fails: with status 401 and a body whose `error` field is
present and holds the empty string, the message is the default, not the field. -/
theorem request_empty_error_field_gives_default :
    lookupField "error" [("error", .str "")] = some (.str "") ∧
    sampleClient._request
        (rejectWith { status := 401, data := .obj [("error", .str "")], headers := [] })
        "POST" "/verify" Options.none
      = .error (.sdk
          { name := .AuthenticationError
            message := "Invalid API key"
            statusCode := .num (.int 401)
            responseData := .obj [("error", .str "")]
            retryAfter := none }) ∧
    "Invalid API key" ≠ "" := by
  refine ⟨rfl, rfl, by decide⟩

/-- C4, amended: when the request is rejected with a response whose status is
not 429 and whose decoded body `b` is not `null` (an object, a string, the
empty body, an array, a number or a boolean), the error thrown has as message
the `error` field of `b` (the `message` field for status 422) if that field is
truthy: the field itself if it holds a non-empty string, and its conversion
to a string if it holds another truthy value that can be converted. If the
field is absent or falsy, as it is on every body that is not an object, the
message is the fixed default: `Invalid API key` for 401, `Insufficient
credits` for 402, `Validation error` for 422, and `API error: ` followed by
the status for every other status. -/
theorem request_error_message_selection (c : Client) (net : Transport)
    (method endpoint : String) (options : Options) (e : AxiosError) (r : HttpResponse)
    (h : net { method := method, url := endpoint, data := options.data,
               params := options.params } = .rejected e)
    (hr : e.response = some r) (hn : r.data ≠ .null) (hu : r.data ≠ .undefined)
    (hs : r.status ≠ 429) :
    (∀ t, fieldOf r.data (messageKey r.status) = some (.str t) → t ≠ "" →
      c._request net method endpoint options
        = .error (.sdk { name := variantOf r.status, message := t,
                         statusCode := .num (.int r.status), responseData := r.data,
                         retryAfter := none })) ∧
    (∀ v m, fieldOf r.data (messageKey r.status) = some v → truthy v = true →
      toStr v = .ok m →
      c._request net method endpoint options
        = .error (.sdk { name := variantOf r.status, message := m,
                         statusCode := .num (.int r.status), responseData := r.data,
                         retryAfter := none })) ∧
    (truthy ((fieldOf r.data (messageKey r.status)).getD .undefined) = false →
      c._request net method endpoint options
        = .error (.sdk { name := variantOf r.status, message := defaultMessage r.status,
                         statusCode := .num (.int r.status), responseData := r.data,
                         retryAfter := none })) ∧
    ((∀ fields, r.data ≠ .obj fields) →
      c._request net method endpoint options
        = .error (.sdk { name := variantOf r.status, message := defaultMessage r.status,
                         statusCode := .num (.int r.status), responseData := r.data,
                         retryAfter := none })) := by
  rw [request_of_rejected_response c net method endpoint options e r h hr,
    translateResponse_of_body r hn hu hs]
  have hdefault : truthy ((fieldOf r.data (messageKey r.status)).getD .undefined) = false →
      (throwNew (newEmailListCheckerError (variantOf r.status)
          (jsOr ((fieldOf r.data (messageKey r.status)).getD .undefined)
            (.str (defaultMessage r.status)))
          (.num (.int r.status)) r.data) : Js JsVal)
        = .error (.sdk { name := variantOf r.status, message := defaultMessage r.status,
                         statusCode := .num (.int r.status), responseData := r.data,
                         retryAfter := none }) := by
    intro hf
    simp only [jsOr, hf, Bool.false_eq_true, if_false]
    simp [throwNew, newEmailListCheckerError, errorMessage, toStr, orDefault_num,
      orDefault_of_ne_undefined r.data .null hu]
  have htruthy : ∀ v m, fieldOf r.data (messageKey r.status) = some v → truthy v = true →
      toStr v = .ok m →
      (throwNew (newEmailListCheckerError (variantOf r.status)
          (jsOr ((fieldOf r.data (messageKey r.status)).getD .undefined)
            (.str (defaultMessage r.status)))
          (.num (.int r.status)) r.data) : Js JsVal)
        = .error (.sdk { name := variantOf r.status, message := m,
                         statusCode := .num (.int r.status), responseData := r.data,
                         retryAfter := none }) := by
    intro v m hv ht hm
    rw [hv]
    simp only [Option.getD_some, jsOr, ht, if_true]
    exact throwNew_of_converted_message _ v m _ _ ht hm hu
  refine ⟨?_, htruthy, hdefault, ?_⟩
  · intro t ht hne
    have htr : truthy (.str t) = true := by
      have : t.data ≠ [] := fun hd => hne (String.ext hd)
      simp [truthy, this]
    exact htruthy (.str t) t ht htr (by simp [toStr])
  · intro hno
    apply hdefault
    have : fieldOf r.data (messageKey r.status) = none := by
      cases hd : r.data with
      | obj fields => exact absurd hd (hno fields)
      | undefined => rfl
      | null => rfl
      | bool x => rfl
      | num x => rfl
      | str x => rfl
      | arr xs => rfl
    rw [this]
    rfl

/-- Witness for C4: status 500 with an `error` text, status 422 with an
empty body object, status 401 with the empty body (the empty string), and
status 403 with a numeric `error` field. -/
theorem request_error_message_selection_witness :
    sampleClient._request
        (rejectWith { status := 500, data := .obj [("error", .str "boom")], headers := [] })
        "GET" "/credits" Options.none
      = .error (.sdk { name := .ApiError, message := "boom",
                       statusCode := .num (.int 500),
                       responseData := .obj [("error", .str "boom")],
                       retryAfter := none }) ∧
    sampleClient._request
        (rejectWith { status := 422, data := .obj [], headers := [] })
        "POST" "/verify" Options.none
      = .error (.sdk { name := .ValidationError, message := "Validation error",
                       statusCode := .num (.int 422), responseData := .obj [],
                       retryAfter := none }) ∧
    sampleClient._request
        (rejectWith { status := 401, data := .str "", headers := [] })
        "POST" "/verify" Options.none
      = .error (.sdk { name := .AuthenticationError, message := "Invalid API key",
                       statusCode := .num (.int 401), responseData := .str "",
                       retryAfter := none }) ∧
    sampleClient._request
        (rejectWith { status := 403, data := .obj [("error", .num (.int 7))], headers := [] })
        "GET" "/usage" Options.none
      = .error (.sdk { name := .ApiError, message := "7",
                       statusCode := .num (.int 403),
                       responseData := .obj [("error", .num (.int 7))],
                       retryAfter := none }) :=
  ⟨(request_error_message_selection sampleClient
      (rejectWith { status := 500, data := .obj [("error", .str "boom")], headers := [] })
      "GET" "/credits" Options.none
      (statusError { status := 500, data := .obj [("error", .str "boom")], headers := [] })
      { status := 500, data := .obj [("error", .str "boom")], headers := [] }
      rfl rfl (fun e => by cases e) (fun e => by cases e) (by decide)).1
      "boom" rfl (by decide),
   (request_error_message_selection sampleClient
      (rejectWith { status := 422, data := .obj [], headers := [] })
      "POST" "/verify" Options.none
      (statusError { status := 422, data := .obj [], headers := [] })
      { status := 422, data := .obj [], headers := [] }
      rfl rfl (fun e => by cases e) (fun e => by cases e) (by decide)).2.2.1 rfl,
   (request_error_message_selection sampleClient
      (rejectWith { status := 401, data := .str "", headers := [] })
      "POST" "/verify" Options.none
      (statusError { status := 401, data := .str "", headers := [] })
      { status := 401, data := .str "", headers := [] }
      rfl rfl (fun e => by cases e) (fun e => by cases e) (by decide)).2.2.2
      (fun fields e => by cases e),
   (request_error_message_selection sampleClient
      (rejectWith { status := 403, data := .obj [("error", .num (.int 7))], headers := [] })
      "GET" "/usage" Options.none
      (statusError { status := 403, data := .obj [("error", .num (.int 7))], headers := [] })
      { status := 403, data := .obj [("error", .num (.int 7))], headers := [] }
      rfl rfl (fun e => by cases e) (fun e => by cases e) (by decide)).2.1
      (.num (.int 7)) "7" rfl rfl rfl⟩

mutual
theorem toStr_error_is_typeError : ∀ (v : JsVal) (t : Thrown),
    toStr v = .error t → t = .typeError
  | .undefined, t, h => by simp [toStr] at h
  | .null, t, h => by simp [toStr] at h
  | .bool true, t, h => by simp [toStr] at h
  | .bool false, t, h => by simp [toStr] at h
  | .num x, t, h => by simp [toStr] at h
  | .str s, t, h => by simp [toStr] at h
  | .arr xs, t, h => by
    rw [toStr] at h
    exact joinElems_error_is_typeError xs t h
  | .obj fields, t, h => by
    rw [toStr] at h
    split at h
    · exact (Except.error.inj h).symm
    · simp at h
theorem joinElems_error_is_typeError : ∀ (xs : List JsVal) (t : Thrown),
    joinElems xs = .error t → t = .typeError
  | [], t, h => by simp [joinElems] at h
  | x :: rest, t, h => by
    rw [joinElems] at h
    have hx : ∀ u, elemStr x (toStr x) = .error u → u = .typeError := by
      intro u hu
      cases x with
      | undefined => simp [elemStr] at hu
      | null => simp [elemStr] at hu
      | bool b => exact toStr_error_is_typeError _ u (by simpa [elemStr] using hu)
      | num n => exact toStr_error_is_typeError _ u (by simpa [elemStr] using hu)
      | str s => exact toStr_error_is_typeError _ u (by simpa [elemStr] using hu)
      | arr ys => exact toStr_error_is_typeError _ u (by simpa [elemStr] using hu)
      | obj fs => exact toStr_error_is_typeError _ u (by simpa [elemStr] using hu)
    split at h
    · next e he => rw [← Except.error.inj h]; exact hx e he
    · next a ha =>
      split at h
      · simp at h
      · split at h
        · next e he =>
          rw [← Except.error.inj h]
          exact joinElems_error_is_typeError _ e he
        · simp at h
end

theorem newError_fields (cls : ErrorClass) (msg sc rd : JsVal) (err : SdkError)
    (h : (throwNew (newEmailListCheckerError cls msg sc rd) : Js JsVal) = .error (.sdk err)) :
    err.name = cls ∧ err.statusCode = orDefault sc .null ∧
    err.responseData = orDefault rd .null ∧ err.retryAfter = none := by
  unfold newEmailListCheckerError at h
  cases hm : errorMessage msg with
  | error t =>
    have ht : t = .typeError := by
      cases msg <;> first
        | (simp [errorMessage] at hm; done)
        | exact toStr_error_is_typeError _ t (by simpa [errorMessage] using hm)
    simp [hm, throwNew, ht] at h
  | ok m =>
    simp only [hm, throwNew] at h
    have h2 := Thrown.sdk.inj (Except.error.inj h)
    subst h2
    simp

theorem getProp_error_is_typeError (v : JsVal) (k : String) (t : Thrown)
    (h : getProp v k = .error t) : t = .typeError := by
  cases v <;> simp [getProp] at h <;> exact h.symm

theorem translateResponse_variant (r : HttpResponse) (err : SdkError)
    (h : (translateResponse r : Js JsVal) = .error (.sdk err)) :
    err.name = variantOf r.status ∧ err.statusCode = .num (.int r.status) ∧
    err.responseData = orDefault r.data .null := by
  unfold translateResponse at h
  by_cases h0 : r.status = 429
  · simp only [h0, if_true, newRateLimitError] at h
    cases hc : newEmailListCheckerError .RateLimitError
        (.str ("Rate limit exceeded. Retry after " ++
          (parseInt (retryAfterText r.headers)).render ++ " seconds"))
        (orDefault (.num (.int 429)) (.num (.int 429))) (orDefault r.data .null) with
    | error t => simp [newEmailListCheckerError, errorMessage, toStr] at hc
    | ok e0 =>
      have hf := newError_fields _ _ _ _ e0 (by rw [hc]; rfl)
      rw [hc] at h
      simp only [throwNew] at h
      have h2 := Thrown.sdk.inj (Except.error.inj h)
      subst h2
      simp [variantOf, h0, hf.1, hf.2.1, hf.2.2.1, orDefault_num, orDefault_idem]
  · by_cases h1 : r.status = 401
    · simp only [h1, if_true, newAuthenticationError] at h
      cases hg : getProp r.data "error" with
      | error t =>
        rw [hg] at h
        have := getProp_error_is_typeError _ _ _ hg
        subst this
        simp at h
      | ok v =>
        rw [hg] at h
        have hf := newError_fields _ _ _ _ err (by simpa using h)
        simp [variantOf, h1, hf.1, hf.2.1, hf.2.2.1, orDefault_num, orDefault_idem]
    · by_cases h2 : r.status = 402
      · simp only [h2, if_true, newInsufficientCreditsError] at h
        cases hg : getProp r.data "error" with
        | error t =>
          rw [hg] at h
          have := getProp_error_is_typeError _ _ _ hg
          subst this
          simp at h
        | ok v =>
          rw [hg] at h
          have hf := newError_fields _ _ _ _ err (by simpa using h)
          simp [variantOf, h2, hf.1, hf.2.1, hf.2.2.1, orDefault_num, orDefault_idem]
      · by_cases h3 : r.status = 422
        · simp only [h3, if_true, newValidationError] at h
          cases hg : getProp r.data "message" with
          | error t =>
            rw [hg] at h
            have := getProp_error_is_typeError _ _ _ hg
            subst this
            simp at h
          | ok v =>
            rw [hg] at h
            have hf := newError_fields _ _ _ _ err (by simpa using h)
            simp [variantOf, h3, hf.1, hf.2.1, hf.2.2.1, orDefault_num, orDefault_idem]
        · simp only [h0, h1, h2, h3, if_false, newApiError] at h
          cases hg : getProp r.data "error" with
          | error t =>
            rw [hg] at h
            have := getProp_error_is_typeError _ _ _ hg
            subst this
            simp at h
          | ok v =>
            rw [hg] at h
            have hf := newError_fields _ _ _ _ err (by simpa using h)
            have hnn : orDefault r.data .null = r.data := by
              cases hd : r.data <;> simp [hd, getProp] at hg <;> rfl
            simp [variantOf, h0, h1, h2, h3, hf.1, hf.2.1, hf.2.2.1, orDefault_num, hnn]

theorem translateResponse_rate_limit (r : HttpResponse) (h : r.status = 429) :
    (translateResponse r : Js JsVal)
      = .error (.sdk
          { name := .RateLimitError
            message := "Rate limit exceeded. Retry after " ++
              (parseInt (retryAfterText r.headers)).render ++ " seconds"
            statusCode := .num (.int 429)
            responseData := orDefault r.data .null
            retryAfter := some (.num (parseInt (retryAfterText r.headers))) }) := by
  simp [translateResponse, h, throwNew, newRateLimitError, newEmailListCheckerError,
    errorMessage, toStr, orDefault_num, orDefault_idem]

theorem retryAfterText_absent (headers : List (String × String))
    (h : header "retry-after" headers = none) : retryAfterText headers = "60" := by
  simp [retryAfterText, h]

theorem parseInt_examples :
    parseInt "17" = .int 17 ∧ parseInt "60" = .int 60 ∧ parseInt " -0x1Fz" = .int (-31) ∧
    parseInt "" = .nan ∧ parseInt "soon" = .nan := by
  decide

/-- C1 fails on the code: with status 401 and a body object whose `error`
field is an object that has a `toString` field, the construction of the
`AuthenticationError` throws a `TypeError` (the `Error` constructor converts
its message argument to a string), so no variant of the table is raised. -/
theorem request_unconvertible_error_field_throws_typeError :
    sampleClient._request
        (rejectWith { status := 401
                      data := .obj [("error", .obj [("toString", .num (.int 1))])]
                      headers := [] })
        "POST" "/verify" Options.none
      = .error .typeError := by
  rfl

/-- C3 fails on the code: with status 429, a `Retry-After` header of `17`
gives `retryAfter` 17 and an absent header gives 60, but a header that does
not start with an integer (here an HTTP date) gives `retryAfter` `NaN` and the
message `Rate limit exceeded. Retry after NaN seconds`, not 60. -/
theorem rateLimit_unparseable_retry_after_gives_nan :
    sampleClient._request
        (rejectWith { status := 429, data := .obj [], headers := [("retry-after", "17")] })
        "GET" "/credits" Options.none
      = .error (.sdk { name := .RateLimitError
                       message := "Rate limit exceeded. Retry after 17 seconds"
                       statusCode := .num (.int 429)
                       responseData := .obj []
                       retryAfter := some (.num (.int 17)) }) ∧
    sampleClient._request
        (rejectWith { status := 429, data := .obj [], headers := [] })
        "GET" "/credits" Options.none
      = .error (.sdk { name := .RateLimitError
                       message := "Rate limit exceeded. Retry after 60 seconds"
                       statusCode := .num (.int 429)
                       responseData := .obj []
                       retryAfter := some (.num (.int 60)) }) ∧
    sampleClient._request
        (rejectWith { status := 429, data := .obj []
                      headers := [("retry-after", "Wed, 21 Oct 2015 07:28:00 GMT")] })
        "GET" "/credits" Options.none
      = .error (.sdk { name := .RateLimitError
                       message := "Rate limit exceeded. Retry after NaN seconds"
                       statusCode := .num (.int 429)
                       responseData := .obj []
                       retryAfter := some (.num .nan) }) := by
  refine ⟨?_, ?_, ?_⟩ <;> rfl

/-- C10 fails on the code: with status 500 and the decoded body `null`, the
read of `responseData.error` throws a `TypeError`, which is not a variant of
the error taxonomy. -/
theorem request_null_body_throws_typeError :
    sampleClient._request
        (rejectWith { status := 500, data := .null, headers := [] })
        "GET" "/credits" Options.none
      = .error .typeError := by
  rfl

end EmailListChecker
